import Mathlib

/-!
Verification of the KoradPS serial driver (src/koradPS.py).

The driver is a shallow command-translation layer over one serial port.
We embed it as explicit state passing over `PSState`, which records the
bytes written to the port, the bytes pending to be read from the device,
and the total time slept.  Bytes are `Nat` (values 0..255); commands are
Lean `String`s of ASCII characters, matching `cmd.encode()` on ASCII text.
-/

/-- The serial-session state.  `written` is the concatenation of all bytes
written to the port so far (as characters, since every command is ASCII);
`pending` is the byte stream the device has made available for reading;
`slept` is the total time (in seconds, as a rational) spent in
`time.sleep`. -/
structure PSState where
  written : List Char
  pending : List Nat
  slept : ℚ
deriving DecidableEq, Repr

/-- A fresh session: nothing written, nothing pending, no sleep. -/
def initPS : PSState := ⟨[], [], 0⟩

/-- A session with a given device response queued for reading. -/
def stateWithPending (bs : List Nat) : PSState := ⟨[], bs, 0⟩

/-- `self.responseTime = 0.050` from `__init__` (50 ms per the manual). -/
def responseTime : ℚ := 50 / 1000

/-- Models `self.ser.write(cmd.encode())`: appends the command's (ASCII)
characters to the written log. -/
def serWrite (s : PSState) (cmd : String) : PSState :=
  { s with written := s.written ++ cmd.data }

/-- Models `self.ser.read(n)` under pyserial semantics with a timeout:
returns up to `n` bytes, i.e. the first `min n (available)` pending bytes,
and removes them from the pending stream. -/
def serRead (s : PSState) (n : Nat) : List Nat × PSState :=
  (s.pending.take n, { s with pending := s.pending.drop n })

/-- Models `self.ser.readline()` under pyserial semantics: consumes bytes
up to and including the first newline (byte 10); if no newline arrives
before the timeout, consumes everything available. -/
def serReadlineBytes : List Nat → List Nat × List Nat
  | [] => ([], [])
  | b :: rest =>
    if b = 10 then ([10], rest)
    else
      let (l, r) := serReadlineBytes rest
      (b :: l, r)

/-- Models `bytes.decode()`: for the byte values this driver ever sees the
payload is ASCII, where UTF-8 decoding is the identity on code points; a
byte ≥ 128 would not be a complete UTF-8 scalar on its own, so we return
`none` (a `UnicodeDecodeError`) outside the ASCII range. -/
def pyDecode (bs : List Nat) : Option (List Char) :=
  if bs.all (fun b => b < 128) then some (bs.map Char.ofNat) else none

/-- Numeric value of a run of ASCII digits (most significant first). -/
def natFromDigits (cs : List Char) : Nat :=
  cs.foldl (fun a c => 10 * a + (c.toNat - 48)) 0

/-- Unsigned part of a decimal literal — digits, optionally followed by a
point and more digits, with at least one digit overall — returned in
scaled form: the digit string's value with the point removed, paired with
the number of fractional digits. -/
def parseScaledDigits (cs : List Char) : Option (Nat × Nat) :=
  let intPart := cs.takeWhile Char.isDigit
  let rest := cs.dropWhile Char.isDigit
  match rest with
  | [] => if intPart.isEmpty then none else some (natFromDigits intPart, 0)
  | '.' :: frac =>
    if frac.all Char.isDigit && !(intPart.isEmpty && frac.isEmpty) then
      some (natFromDigits (intPart ++ frac), frac.length)
    else none
  | _ => none

/-- Optional sign in front of the unsigned literal; `true` means
negative. -/
def parseSigned (cs : List Char) : Option (Bool × Nat × Nat) :=
  match cs with
  | '-' :: rest => (parseScaledDigits rest).map (fun p => (true, p))
  | '+' :: rest => (parseScaledDigits rest).map (fun p => (false, p))
  | _ => (parseScaledDigits cs).map (fun p => (false, p))

/-- Modelled from the Python builtin `float(str)`, restricted to plain
decimal literals (optional sign, digits, optional fractional part): the
builtin additionally strips whitespace and accepts exponents, underscores
and inf/nan spellings, none of which occur in this driver's fixed-width
numeric protocol.  `none` models the `ValueError` raised on anything
else (in particular the empty string). -/
def pyFloat (cs : List Char) : Option ℚ :=
  (parseSigned cs).map fun p =>
    (if p.1 then -(p.2.1 : ℚ) else (p.2.1 : ℚ)) / 10 ^ p.2.2

/-- `float(bs.decode())` for a raw response: decode then parse, `none`
modelling either exception. -/
def decodeFloat (bs : List Nat) : Option ℚ :=
  (pyDecode bs).bind pyFloat

/-- `KoradPS.send`: writes the command and sleeps for `responseTime`.
No response is read. -/
def KoradPS.send (s : PSState) (cmd : String) : PSState :=
  let s1 := serWrite s cmd
  { s1 with slept := s1.slept + responseTime }

/-- `KoradPS.read`: writes the command, reads up to 5 bytes and returns
`float(response.decode())`; `none` models the exception on a payload that
does not decode/parse. -/
def KoradPS.read (s : PSState) (cmd : String) : Option ℚ × PSState :=
  let s1 := serWrite s cmd
  let (resp, s2) := serRead s1 5
  (decodeFloat resp, s2)

/-- `KoradPS.iset(amps, channel)`.  Python formats the command with
`'ISET...'.format(channel, amps)`; the float-to-text conversion
`str(amps)` is modelled by taking the argument as its already formatted
string (`none` is Python's `amps=None`, selecting the query branch). -/
def KoradPS.iset (s : PSState) (amps : Option String) (channel : Int) :
    Option ℚ × PSState :=
  match amps with
  | some a => (none, KoradPS.send s ("ISET" ++ toString channel ++ ":" ++ a))
  | none => KoradPS.read s ("ISET" ++ toString channel ++ "?")

/-- `KoradPS.vset(volts, channel)`, analogous to `iset`. -/
def KoradPS.vset (s : PSState) (volts : Option String) (channel : Int) :
    Option ℚ × PSState :=
  match volts with
  | some v => (none, KoradPS.send s ("VSET" ++ toString channel ++ ":" ++ v))
  | none => KoradPS.read s ("VSET" ++ toString channel ++ "?")

/-- `KoradPS.iout(channel)`: actual output current. -/
def KoradPS.iout (s : PSState) (channel : Int) : Option ℚ × PSState :=
  KoradPS.read s ("IOUT" ++ toString channel ++ "?")

/-- `KoradPS.vout(channel)`: actual output voltage. -/
def KoradPS.vout (s : PSState) (channel : Int) : Option ℚ × PSState :=
  KoradPS.read s ("VOUT" ++ toString channel ++ "?")

/-- `KoradPS.on()`. -/
def KoradPS.on (s : PSState) : PSState := KoradPS.send s "OUT1"

/-- `KoradPS.off()`. -/
def KoradPS.off (s : PSState) : PSState := KoradPS.send s "OUT0"

/-- `KoradPS.recall(setting)`: `setting` is a Python int, formatted by
`str`. -/
def KoradPS.recall (s : PSState) (setting : Int) : PSState :=
  KoradPS.send s ("RCL" ++ toString setting)

/-- `KoradPS.save(setting)`. -/
def KoradPS.save (s : PSState) (setting : Int) : PSState :=
  KoradPS.send s ("SAV" ++ toString setting)

/-- `KoradPS.ocp(setting)`. -/
def KoradPS.ocp (s : PSState) (setting : Int) : PSState :=
  KoradPS.send s ("OCP" ++ toString setting)

/-- Models Python `bin(n)[2]` for `n ≥ 0`: `bin(n)` is `'0b'` followed by
the binary digits of `n` without leading zeros (just `'0'` for `n = 0`),
so index 2 is the first binary digit.  `Nat.toDigits 2 n` is exactly that
digit list, never empty. -/
def pyBinAt2 (n : Nat) : Char := (Nat.toDigits 2 n).headD '0'

/-- Models Python `bin(n)[-1]`: the last binary digit. -/
def pyBinLast (n : Nat) : Char := (Nat.toDigits 2 n).getLastD '0'

/-- The mode branch of `KoradPS.status` on the character `bin(ord(r))[2]`:
`'0'` maps to `"CC"`, `'1'` to `"CV"`, and anything else is passed
through as-is (the code's final `else` keeps the raw character). -/
def statusModeOfChar (c : Char) : String :=
  if c = '0' then "CC" else if c = '1' then "CV" else String.mk [c]

/-- The output branch of `KoradPS.status` on the character
`bin(ord(r))[-1]`: `'0'` maps to `"OFF"`, `'1'` to `"ON"`, anything else
is passed through as-is. -/
def statusOutputOfChar (c : Char) : String :=
  if c = '0' then "OFF" else if c = '1' then "ON" else String.mk [c]

/-- `KoradPS.status`: writes `STATUS?`, reads up to 2 bytes, then applies
`ord(response)` to the whole buffer.  Python's `ord` accepts only a
length-1 bytes object and raises `TypeError` otherwise, which `none`
models; on a single byte `b` the result string is
`"Mode: <m>, Output: <o>"` with `m`/`o` from the two bit characters. -/
def KoradPS.status (s : PSState) : Option String × PSState :=
  let s1 := serWrite s "STATUS?"
  let (resp, s2) := serRead s1 2
  match resp with
  | [b] =>
    (some ("Mode: " ++ statusModeOfChar (pyBinAt2 b) ++ ", Output: " ++
      statusOutputOfChar (pyBinLast b)), s2)
  | _ => (none, s2)

/-- `KoradPS.id`: writes `*IDN?` and returns `self.ser.readline().decode()`;
`none` models a `UnicodeDecodeError` on a non-ASCII payload. -/
def KoradPS.id (s : PSState) : Option String × PSState :=
  let s1 := serWrite s "*IDN?"
  let (resp, rest) := serReadlineBytes s1.pending
  ((pyDecode resp).map String.mk, { s1 with pending := rest })

/-- The value part of a `VSET<ch>:<v>`-style command as the simulated
device sees it: everything after the colon, parsed as an unsigned decimal
in scaled form. -/
def deviceParseSet (cmd : List Char) : Option (Nat × Nat) :=
  match cmd.dropWhile (fun c => c ≠ ':') with
  | ':' :: val => parseScaledDigits val
  | _ => none

/-- A parsed scaled decimal converted to hundredths (the supply's display
resolution). -/
def deviceHundredths (p : Nat × Nat) : Nat := p.1 * 100 / 10 ^ p.2

/-- The device's fixed 5-character rendering `XY.ZW` of a value given in
hundredths, e.g. 250 hundredths renders as `02.50`. -/
def deviceFormat5 (h : Nat) : List Nat :=
  [48 + h / 1000 % 10, 48 + h / 100 % 10, 46, 48 + h / 10 % 10, 48 + h % 10]

/-- The round-trip scenario of the spec: set the voltage limit to 2.50
(Python renders the float `2.50` as `"2.5"`), let a simulated device parse
the command it received and echo the stored value back in the fixed
5-character format, then query the voltage limit. -/
def vsetRoundTrip : Option ℚ :=
  let s1 := (KoradPS.vset initPS (some "2.5") 1).2
  match deviceParseSet s1.written with
  | none => none
  | some stored =>
    let s2 := { s1 with pending := deviceFormat5 (deviceHundredths stored) }
    (KoradPS.vset s2 none 1).1

/-- `serReadlineBytes` on a stream with a first newline after `pre`
consumes exactly `pre` plus the newline and leaves the rest. -/
theorem serReadlineBytes_split (pre post : List Nat) (h : ∀ b ∈ pre, b ≠ 10) :
    serReadlineBytes (pre ++ 10 :: post) = (pre ++ [10], post) := by
  induction pre with
  | nil => simp [serReadlineBytes]
  | cons a t ih =>
    have ha : a ≠ 10 := h a (List.mem_cons_self a t)
    have ht : ∀ b ∈ t, b ≠ 10 := fun b hb => h b (List.mem_cons_of_mem a hb)
    simp [serReadlineBytes, ha, ih ht]

/-- Evaluation of `pyFloat` from the scaled parse of an unsigned
literal. -/
theorem pyFloat_eval (cs : List Char) (n d : Nat)
    (h : parseSigned cs = some (false, n, d)) :
    pyFloat cs = some ((n : ℚ) / 10 ^ d) := by
  unfold pyFloat
  rw [h]
  simp

/-- C1: the claim says `status` writes `STATUS?`, reads 2 bytes and, for a
2-byte response with mode bit 0 and output bit 1, returns mode CC and
output ON.  On the code, `ord(response)` raises `TypeError` on any 2-byte
response, so the concrete 2-byte response `0x00 0x01` produces an error
(`none`), not a decoded status; the command written is still `STATUS?`. -/
theorem status_on_two_byte_response_raises :
    (stateWithPending [0, 1]).pending.length = 2
    ∧ (KoradPS.status (stateWithPending [0, 1])).1 = none
    ∧ (KoradPS.status (stateWithPending [0, 1])).2.written = "STATUS?".data :=
  ⟨rfl, rfl, rfl⟩

/-- C2 counterexample: the 4-byte response `"3.50"` is shorter than 5
bytes, yet `KoradPS.read` (hence getCurrentLimit) returns the value 3.5
instead of failing with a decode error, refuting the claim that every
short response fails. -/
theorem read_short_payload_returns_value :
    (stateWithPending [51, 46, 53, 48]).pending.length < 5
    ∧ (KoradPS.read (stateWithPending [51, 46, 53, 48]) "ISET1?").1
      = some (3.5 : ℚ) := by
  refine ⟨by decide, ?_⟩
  have h : (KoradPS.read (stateWithPending [51, 46, 53, 48]) "ISET1?").1
      = pyFloat (List.map Char.ofNat [51, 46, 53, 48]) := rfl
  rw [h, pyFloat_eval _ 350 2 (by decide)]
  norm_num

/-- C2 amended: for every transport response of fewer than 5 bytes, the
query read returns exactly the decode/parse of those bytes — so it fails
with a decode error precisely when the short payload is not itself a
parseable decimal, and never returns a value other than the parse of what
arrived.  In particular the empty response of a full timeout always
fails, while a short response forming a valid decimal, such as the 4-byte
`"3.50"`, is parsed and returned as its value. -/
theorem read_short_error_iff_parse_fails (s : PSState) (cmd : String)
    (h : s.pending.length < 5) :
    ((KoradPS.read s cmd).1 = decodeFloat s.pending
      ∧ ((KoradPS.read s cmd).1 = none ↔ decodeFloat s.pending = none))
    ∧ (KoradPS.read (stateWithPending []) cmd).1 = none
    ∧ (KoradPS.read (stateWithPending [51, 46, 53, 48]) cmd).1
      = some (3.5 : ℚ) := by
  have heq : (KoradPS.read s cmd).1 = decodeFloat s.pending := by
    show decodeFloat (s.pending.take 5) = decodeFloat s.pending
    rw [List.take_of_length_le (Nat.le_of_lt h)]
  refine ⟨⟨heq, by rw [heq]⟩, rfl, ?_⟩
  have h2 : (KoradPS.read (stateWithPending [51, 46, 53, 48]) cmd).1
      = pyFloat (List.map Char.ofNat [51, 46, 53, 48]) := rfl
  rw [h2, pyFloat_eval _ 350 2 (by decide)]
  norm_num

/-- C2 amended witness at the 4-byte response `"3.50"`: shorter than 5
bytes, returned value equals the parse of the payload, and the two
concrete instances evaluate. -/
theorem read_short_error_iff_parse_fails_witness :
    (stateWithPending [51, 46, 53, 48]).pending.length < 5
    ∧ (((KoradPS.read (stateWithPending [51, 46, 53, 48]) "ISET1?").1
          = decodeFloat (stateWithPending [51, 46, 53, 48]).pending
        ∧ ((KoradPS.read (stateWithPending [51, 46, 53, 48]) "ISET1?").1 = none
          ↔ decodeFloat (stateWithPending [51, 46, 53, 48]).pending = none))
      ∧ (KoradPS.read (stateWithPending []) "ISET1?").1 = none
      ∧ (KoradPS.read (stateWithPending [51, 46, 53, 48]) "ISET1?").1
        = some (3.5 : ℚ)) :=
  ⟨by decide,
    read_short_error_iff_parse_fails (stateWithPending [51, 46, 53, 48])
      "ISET1?" (by decide)⟩

/-- C3: for every channel ≥ 1 and every value (a finite float, modelled by
its formatted text), the set branches of `iset`/`vset` write exactly
`ISET<ch>:<amps>` / `VSET<ch>:<volts>` with no extra characters, and each
call sleeps for the configured response delay, which is positive. -/
theorem set_limit_command_exact (ch : Int) (a v : String) (s : PSState)
    (_hch : 1 ≤ ch) :
    ((KoradPS.iset s (some a) ch).2.written
        = s.written ++ ("ISET" ++ toString ch ++ ":" ++ a).data
      ∧ (KoradPS.iset s (some a) ch).2.slept = s.slept + responseTime)
    ∧ ((KoradPS.vset s (some v) ch).2.written
        = s.written ++ ("VSET" ++ toString ch ++ ":" ++ v).data
      ∧ (KoradPS.vset s (some v) ch).2.slept = s.slept + responseTime)
    ∧ 0 < responseTime :=
  ⟨⟨rfl, rfl⟩, ⟨rfl, rfl⟩, by norm_num [responseTime]⟩

/-- C3 witness at channel 1, amps 3.5, volts 2.5, fresh session. -/
theorem set_limit_command_exact_witness :
    1 ≤ (1 : Int)
    ∧ (((KoradPS.iset initPS (some "3.5") 1).2.written
          = initPS.written ++ ("ISET" ++ toString (1 : Int) ++ ":" ++ "3.5").data
        ∧ (KoradPS.iset initPS (some "3.5") 1).2.slept
          = initPS.slept + responseTime)
      ∧ ((KoradPS.vset initPS (some "2.5") 1).2.written
          = initPS.written ++ ("VSET" ++ toString (1 : Int) ++ ":" ++ "2.5").data
        ∧ (KoradPS.vset initPS (some "2.5") 1).2.slept
          = initPS.slept + responseTime)
      ∧ 0 < responseTime) :=
  ⟨by decide, set_limit_command_exact 1 "3.5" "2.5" initPS (by decide)⟩

/-- C6: round-trip against the simulated echo device — setting the voltage
limit to 2.50 and querying it back returns 2.50. -/
theorem vset_roundtrip_returns_value : vsetRoundTrip = some (2.50 : ℚ) := by
  have h : vsetRoundTrip = pyFloat (List.map Char.ofNat (deviceFormat5 250)) := rfl
  rw [h, pyFloat_eval _ 250 2 (by decide)]
  norm_num

/-- C4: whenever at least 5 bytes are available, each of the four numeric
queries (`iout`, `vout`, and the query branches of `iset`/`vset`) writes
its command, consumes exactly 5 bytes, and returns the float obtained by
decoding and parsing those 5 bytes as an ASCII decimal. -/
theorem numeric_queries_read_five_and_parse (s : PSState) (ch : Int)
    (h : 5 ≤ s.pending.length) :
    ((KoradPS.iout s ch).1 = decodeFloat (s.pending.take 5)
      ∧ (KoradPS.iout s ch).2.pending = s.pending.drop 5
      ∧ (KoradPS.iout s ch).2.written
        = s.written ++ ("IOUT" ++ toString ch ++ "?").data)
    ∧ ((KoradPS.vout s ch).1 = decodeFloat (s.pending.take 5)
      ∧ (KoradPS.vout s ch).2.pending = s.pending.drop 5
      ∧ (KoradPS.vout s ch).2.written
        = s.written ++ ("VOUT" ++ toString ch ++ "?").data)
    ∧ ((KoradPS.iset s none ch).1 = decodeFloat (s.pending.take 5)
      ∧ (KoradPS.iset s none ch).2.pending = s.pending.drop 5
      ∧ (KoradPS.iset s none ch).2.written
        = s.written ++ ("ISET" ++ toString ch ++ "?").data)
    ∧ ((KoradPS.vset s none ch).1 = decodeFloat (s.pending.take 5)
      ∧ (KoradPS.vset s none ch).2.pending = s.pending.drop 5
      ∧ (KoradPS.vset s none ch).2.written
        = s.written ++ ("VSET" ++ toString ch ++ "?").data)
    ∧ (s.pending.take 5).length = 5 := by
  refine ⟨⟨rfl, rfl, rfl⟩, ⟨rfl, rfl, rfl⟩, ⟨rfl, rfl, rfl⟩, ⟨rfl, rfl, rfl⟩, ?_⟩
  simp [List.length_take]
  omega

/-- C4 witness: the 5-byte payload `"03.50"` is read whole by `iout` and
parses to 3.50. -/
theorem numeric_queries_read_five_and_parse_witness :
    5 ≤ (stateWithPending [48, 51, 46, 53, 48]).pending.length
    ∧ (KoradPS.iout (stateWithPending [48, 51, 46, 53, 48]) 1).1
      = some (3.50 : ℚ) := by
  refine ⟨by decide, ?_⟩
  have h := numeric_queries_read_five_and_parse
    (stateWithPending [48, 51, 46, 53, 48]) 1 (by decide)
  rw [h.1.1]
  have h2 : decodeFloat ((stateWithPending [48, 51, 46, 53, 48]).pending.take 5)
      = pyFloat (List.map Char.ofNat [48, 51, 46, 53, 48]) := rfl
  rw [h2, pyFloat_eval _ 350 2 (by decide)]
  norm_num

/-- C5: the status decoder's branch on a bit character maps only `'0'` and
`'1'` to the documented values; any other character is passed through
unmapped as the resulting mode/output text, and no error is raised (the
functions are total). -/
theorem status_unknown_bit_char_passthrough (c : Char)
    (h0 : c ≠ '0') (h1 : c ≠ '1') :
    statusModeOfChar c = String.mk [c]
    ∧ statusOutputOfChar c = String.mk [c] := by
  simp [statusModeOfChar, statusOutputOfChar, h0, h1]

/-- C5 witness at the character `'x'`. -/
theorem status_unknown_bit_char_passthrough_witness :
    ('x' ≠ '0' ∧ 'x' ≠ '1')
    ∧ (statusModeOfChar 'x' = String.mk ['x']
      ∧ statusOutputOfChar 'x' = String.mk ['x']) :=
  ⟨by decide, status_unknown_bit_char_passthrough 'x' (by decide) (by decide)⟩

/-- C7: `recall 2` writes exactly `RCL2` and `save 1` writes exactly
`SAV1`, and neither consumes any pending response bytes; `on`, `off` and
`ocp 1`/`ocp 0` write exactly `OUT1`, `OUT0`, `OCP1`, `OCP0`. -/
theorem fire_and_forget_commands_exact :
    ((KoradPS.recall (stateWithPending [49, 50]) 2).written = "RCL2".data
      ∧ (KoradPS.recall (stateWithPending [49, 50]) 2).pending = [49, 50])
    ∧ ((KoradPS.save (stateWithPending [49, 50]) 1).written = "SAV1".data
      ∧ (KoradPS.save (stateWithPending [49, 50]) 1).pending = [49, 50])
    ∧ (KoradPS.on initPS).written = "OUT1".data
    ∧ (KoradPS.off initPS).written = "OUT0".data
    ∧ (KoradPS.ocp initPS 1).written = "OCP1".data
    ∧ (KoradPS.ocp initPS 0).written = "OCP0".data :=
  ⟨⟨rfl, rfl⟩, ⟨rfl, rfl⟩, rfl, rfl, rfl, rfl⟩

/-- C8: `id` writes `*IDN?` and reads a newline-delimited response: for a
pending stream whose first newline follows `pre`, it returns exactly
`pre` plus the newline decoded as text, leaving the bytes after the
newline unread. -/
theorem id_reads_until_newline (s : PSState) (pre post : List Nat)
    (hp : s.pending = pre ++ 10 :: post)
    (hpre : ∀ b ∈ pre, b ≠ 10 ∧ b < 128) :
    (KoradPS.id s).1 = some (String.mk ((pre.map Char.ofNat) ++ ['\n']))
    ∧ (KoradPS.id s).2.pending = post
    ∧ (KoradPS.id s).2.written = s.written ++ "*IDN?".data := by
  have hsplit := serReadlineBytes_split pre post (fun b hb => (hpre b hb).1)
  have hdec : pyDecode (pre ++ [10]) = some ((pre ++ [10]).map Char.ofNat) := by
    unfold pyDecode
    have : (pre ++ [10]).all (fun b => b < 128) = true := by
      simp [List.all_append]
      intro b hb
      simpa using (hpre b hb).2
    simp [this]
  refine ⟨?_, ?_, rfl⟩
  · show ((pyDecode (serReadlineBytes (serWrite s "*IDN?").pending).1).map
      String.mk) = _
    have hpend : (serWrite s "*IDN?").pending = pre ++ 10 :: post := hp
    rw [hpend, hsplit, hdec]
    simp
  · show (serReadlineBytes (serWrite s "*IDN?").pending).2 = post
    have hpend : (serWrite s "*IDN?").pending = pre ++ 10 :: post := hp
    rw [hpend, hsplit]

/-- C8 witness: pending `KA\n` followed by a stray byte — `id` returns
`"KA\n"` and leaves the stray byte unread. -/
theorem id_reads_until_newline_witness :
    ((stateWithPending [75, 65, 10, 99]).pending = [75, 65] ++ 10 :: [99]
      ∧ ∀ b ∈ [75, 65], b ≠ 10 ∧ b < 128)
    ∧ ((KoradPS.id (stateWithPending [75, 65, 10, 99])).1
        = some (String.mk (([75, 65].map Char.ofNat) ++ ['\n']))
      ∧ (KoradPS.id (stateWithPending [75, 65, 10, 99])).2.pending = [99]
      ∧ (KoradPS.id (stateWithPending [75, 65, 10, 99])).2.written
        = (stateWithPending [75, 65, 10, 99]).written ++ "*IDN?".data) :=
  ⟨⟨rfl, by decide⟩,
    id_reads_until_newline (stateWithPending [75, 65, 10, 99]) [75, 65] [99]
      rfl (by decide)⟩

/-- C9: `status` returns a decoded result exactly when the transport
response to `STATUS?` (up to 2 bytes of the pending stream) is a single
byte; on every other response length — 0 bytes on a timeout, or the 2
bytes the protocol documents — `ord` raises and the operation errors. -/
theorem status_returns_iff_one_byte (s : PSState) :
    (KoradPS.status s).1.isSome
      ↔ (serRead (serWrite s "STATUS?") 2).1.length = 1 := by
  rcases s with ⟨w, p, t⟩
  rcases p with _ | ⟨a, _ | ⟨b, rest⟩⟩
  · simp [KoradPS.status, serWrite, serRead]
  · simp [KoradPS.status, serWrite, serRead]
  · simp [KoradPS.status, serWrite, serRead]

/-- C10: `recall`, `save` and `ocp` perform no range validation: for every
integer argument `n`, they write exactly `RCL<n>`, `SAV<n>`, `OCP<n>`
(with `n` rendered in decimal) and consume no response bytes. -/
theorem recall_save_ocp_no_validation (n : Int) (s : PSState) :
    ((KoradPS.recall s n).written = s.written ++ ("RCL" ++ toString n).data
      ∧ (KoradPS.recall s n).pending = s.pending)
    ∧ ((KoradPS.save s n).written = s.written ++ ("SAV" ++ toString n).data
      ∧ (KoradPS.save s n).pending = s.pending)
    ∧ ((KoradPS.ocp s n).written = s.written ++ ("OCP" ++ toString n).data
      ∧ (KoradPS.ocp s n).pending = s.pending) :=
  ⟨⟨rfl, rfl⟩, ⟨rfl, rfl⟩, ⟨rfl, rfl⟩⟩
